import Mathlib

/-!
Shallow embedding of the `kicad_keyboard_footprints` package (modules
`shapes.py`, `mx.py`, `types.py`, `model.py`) for verifying the design
specification against the code.

Numbers are embedded as rationals (`ℚ`): every numeric literal in the
source is decimal, and the claims under verification concern exact decimal
arithmetic. Python exceptions (`ValueError`, `TypeError`, `IndexError`)
are embedded as `Except String`. Footprint element collections are lists;
an `add_*` composer returns the footprint with elements appended.
-/

deriving instance DecidableEq for Except

/-- A 2D point / vector (KicadModTree `Vector2D`), components in mm. -/
structure Vec2 where
  x : ℚ
  y : ℚ
deriving DecidableEq

/-- A 3D point / vector (KicadModTree `Vector3D`). -/
structure Vec3 where
  x : ℚ
  y : ℚ
  z : ℚ
deriving DecidableEq

instance : Add Vec2 := ⟨fun a b => ⟨a.x + b.x, a.y + b.y⟩⟩

instance : Sub Vec2 := ⟨fun a b => ⟨a.x - b.x, a.y - b.y⟩⟩

/-- Componentwise product (KicadModTree `Vector2D.__mul__` with a vector). -/
instance : Mul Vec2 := ⟨fun a b => ⟨a.x * b.x, a.y * b.y⟩⟩

/-- Scalar product `v * c` (KicadModTree `Vector2D.__mul__` with a number). -/
def Vec2.smul (v : Vec2) (c : ℚ) : Vec2 := ⟨v.x * c, v.y * c⟩

/-- Scalar division `v / c`. -/
def Vec2.sdiv (v : Vec2) (c : ℚ) : Vec2 := ⟨v.x / c, v.y / c⟩

/-- Componentwise division of a `Vector3D` by a scalar. -/
def Vec3.sdiv (v : Vec3) (c : ℚ) : Vec3 := ⟨v.x / c, v.y / c, v.z / c⟩

instance : Add Vec3 := ⟨fun a b => ⟨a.x + b.x, a.y + b.y, a.z + b.z⟩⟩

def ORIGIN : Vec2 := ⟨0, 0⟩

def DEFAULT_STROKE : ℚ := 0.15

/-- `shapes.normalize_angle`: normalize an angle in degrees to [0,360).
Python `%` on ints agrees with Lean `Int.emod` for a positive modulus. -/
def normalize_angle (angle : ℤ) : ℤ :=
  ((angle % 360) + 360) % 360

/-- `shapes.rotate_point`: rotate a point around (0,0) by a multiple of 90
degrees clockwise; `ValueError` for any other angle. -/
def rotate_point (point : Vec2) (angle : ℤ) : Except String Vec2 :=
  let a := normalize_angle angle
  if a = 0 then .ok point
  else if a = 90 then .ok ⟨-point.y, point.x⟩
  else if a = 180 then .ok ⟨-point.x, -point.y⟩
  else if a = 270 then .ok ⟨point.y, -point.x⟩
  else .error "angle must be a multiple of 90"

/-- `shapes.rotate_rect`: rotate the dimensions of a rectangle by a
multiple of 90 degrees; `ValueError` for any other angle. -/
def rotate_rect (dims : Vec2) (angle : ℤ) : Except String Vec2 :=
  let a := normalize_angle angle
  if a = 0 ∨ a = 180 then .ok dims
  else if a = 90 ∨ a = 270 then .ok ⟨dims.y, dims.x⟩
  else .error "angle must be a multiple of 90"

/-- `shapes.to_vec2`: a single number sets both dimensions. The embedding
resolves the `Number | Vec2` union at each call site; this is the
`Number` case. -/
def to_vec2 (n : ℚ) : Vec2 := ⟨n, n⟩

/-- `shapes.Transform`: 2D transformation, applied in the order scale,
rotate, translate. -/
structure Transform where
  translate : Vec2
  rotate : ℤ
  scale : Vec2
deriving DecidableEq

namespace Transform

/-- `Transform.apply`: apply the transform to a point. -/
def apply (t : Transform) (point : Vec2) : Except String Vec2 :=
  (rotate_point (point * t.scale) t.rotate).map (fun q => q + t.translate)

/-- `Transform.with_rotation`: new transform with the rotation changed. -/
def with_rotation (t : Transform) (rotate : ℤ) : Transform :=
  ⟨t.translate, rotate, t.scale⟩

/-- `Transform.with_scale`: new transform with the scale changed. -/
def with_scale (t : Transform) (scale : Vec2) : Transform :=
  ⟨t.translate, t.rotate, scale⟩

end Transform

def IDENTITY : Transform := ⟨ORIGIN, 0, ⟨1, 1⟩⟩

/-- Modelled from the spec: the repository's `layer` module is not under
`src/`; the spec names a front/back fabrication layer, front courtyard,
front/back silkscreen and a neutral user drawing layer. Values follow the
standard KiCad layer names; the claims depend only on their identities. -/
def F_FAB : String := "F.Fab"

def B_FAB : String := "B.Fab"

def F_COURT : String := "F.CrtYd"

def F_SILK : String := "F.SilkS"

def B_SILK : String := "B.SilkS"

def USER_DRAWING : String := "Dwgs.User"

/-- Modelled from the spec: KicadModTree's standard pad layer sets
(external collaborator); the claims depend only on their identities. -/
def LAYERS_NPTH : List String := ["*.Cu", "*.Mask"]

def LAYERS_THT : List String := ["*.Cu", "*.Mask"]

def LAYERS_SMT : List String := ["F.Cu", "F.Paste", "F.Mask"]

inductive PadType where
  | tht
  | smt
  | npth
deriving DecidableEq

inductive PadShape where
  | circle
  | rect
deriving DecidableEq

inductive TextKind where
  | reference
  | value
  | user
deriving DecidableEq

/-- A footprint element (KicadModTree node), geometry in absolute
post-transform coordinates. -/
inductive Element where
  | pad (number : Option ℤ) (type : PadType) (shape : PadShape)
      (layers : List String) (at_ : Vec2) (size : Vec2) (drill : Option Vec2)
  | rectLine (start : Vec2) (end_ : Vec2) (width : ℚ) (layer : String)
  | filledRect (start : Vec2) (end_ : Vec2) (width : ℚ) (layer : String)
  | line (start : Vec2) (end_ : Vec2) (layer : String) (width : ℚ)
  | arc (start : Vec2) (center : Vec2) (end_ : Vec2) (layer : String) (width : ℚ)
  | circle (center : Vec2) (radius : ℚ) (layer : String) (width : ℚ)
  | polygon (nodes : List Vec2) (layer : String) (width : ℚ)
  | text (kind : TextKind) (content : String) (at_ : Vec2) (rotation : ℤ)
      (size : Option Vec2) (thickness : ℚ) (layer : String)
      (mirror : Bool) (hide : Bool)
  | model (filename : String) (at_ : Vec3) (scale : Vec3) (angle : Vec3)
deriving DecidableEq

/-- `KicadModTree.Footprint`: name, description and an append-only ordered
element collection. -/
structure Footprint where
  name : String
  description : String
  elements : List Element
deriving DecidableEq

/-- `Footprint.append`. -/
def Footprint.append (mod : Footprint) (e : Element) : Footprint :=
  ⟨mod.name, mod.description, mod.elements ++ [e]⟩

/-- `shapes.add_npth`: non-plated through hole; drill diameter equals pad
diameter. -/
def add_npth (mod : Footprint) (center : Vec2) (size : ℚ)
    (transform : Transform) : Except String Footprint :=
  (transform.apply center).map fun at_ =>
    mod.append (.pad none .npth .circle LAYERS_NPTH at_ (to_vec2 size)
      (some (to_vec2 size)))

/-- `shapes.add_tht_pad`: through-hole pad. -/
def add_tht_pad (mod : Footprint) (number : ℤ) (center : Vec2) (size : Vec2)
    (drill : Vec2) (shape : PadShape) (layers : List String)
    (transform : Transform) : Except String Footprint :=
  (transform.apply center).map fun at_ =>
    mod.append (.pad (some number) .tht shape layers at_ size (some drill))

/-- `shapes.add_smt_pad`: surface mount pad; the size is passed through
`rotate_rect` with the transform's rotation. -/
def add_smt_pad (mod : Footprint) (number : ℤ) (center : Vec2) (size : Vec2)
    (shape : PadShape) (layers : List String) (transform : Transform) :
    Except String Footprint := do
  let at_ ← transform.apply center
  let sz ← rotate_rect size transform.rotate
  return mod.append (.pad (some number) .smt shape layers at_ sz none)

/-- `shapes.add_rect`: corners computed as `center ± size/2` in local
space, each transformed independently. -/
def add_rect (mod : Footprint) (center : Vec2) (size : Vec2) (layer : String)
    (stroke : ℚ) (fill : Bool) (transform : Transform) :
    Except String Footprint := do
  let start ← transform.apply (center - size.sdiv 2)
  let end_ ← transform.apply (center + size.sdiv 2)
  return mod.append (if fill then .filledRect start end_ stroke layer
    else .rectLine start end_ stroke layer)

/-- `shapes.add_square`. -/
def add_square (mod : Footprint) (center : Vec2) (size : ℚ) (layer : String)
    (stroke : ℚ) (fill : Bool) (transform : Transform) :
    Except String Footprint :=
  add_rect mod center ⟨size, size⟩ layer stroke fill transform

/-- `shapes.add_circle`: only the center is transformed. -/
def add_circle (mod : Footprint) (center : Vec2) (radius : ℚ) (layer : String)
    (stroke : ℚ) (transform : Transform) : Except String Footprint :=
  (transform.apply center).map fun c =>
    mod.append (.circle c radius layer stroke)

/-- `shapes.add_line`: both endpoints transformed independently. -/
def add_line (mod : Footprint) (start : Vec2) (end_ : Vec2) (layer : String)
    (stroke : ℚ) (transform : Transform) : Except String Footprint := do
  let s ← transform.apply start
  let e ← transform.apply end_
  return mod.append (.line s e layer stroke)

/-- `shapes.add_arc`: all three points transformed independently. -/
def add_arc (mod : Footprint) (start : Vec2) (center : Vec2) (end_ : Vec2)
    (layer : String) (stroke : ℚ) (transform : Transform) :
    Except String Footprint := do
  let s ← transform.apply start
  let c ← transform.apply center
  let e ← transform.apply end_
  return mod.append (.arc s c e layer stroke)

/-- A node of a curve point sequence: a plain point or a
`shapes.ArcCenter` marker. -/
inductive CurveNode where
  | pt (p : Vec2)
  | arcCenter (x : ℚ) (y : ℚ)
deriving DecidableEq

/-- `ArcCenter.center`. -/
def CurveNode.center : CurveNode → Vec2
  | .pt p => p
  | .arcCenter x y => ⟨x, y⟩

/-- The pairwise walk of `shapes.add_curve`, carrying the remembered
`arc_start` (initially `None`). When an `ArcCenter` is followed by a point
with no remembered start, the source passes `None` to `add_arc`, where the
external `Vector2D(None)` constructor yields the origin; that collaborator
behavior is outside `src/`, so it is modelled here as `ORIGIN`. -/
def curveWalk (layer : String) (stroke : ℚ) (transform : Transform)
    (arcStart : Option Vec2) : List CurveNode → Except String (List Element)
  | [] => .ok []
  | [_] => .ok []
  | first :: second :: rest =>
    match first, second with
    | .arcCenter _ _, .arcCenter _ _ =>
      .error "Cannot have two adjacent arc centers"
    | .pt start, .arcCenter _ _ =>
      curveWalk layer stroke transform (some start) (second :: rest)
    | .arcCenter cx cy, .pt end_ => do
      let s ← transform.apply (arcStart.getD ORIGIN)
      let c ← transform.apply (⟨cx, cy⟩ : Vec2)
      let e ← transform.apply end_
      let tail ← curveWalk layer stroke transform arcStart (second :: rest)
      return .arc s c e layer stroke :: tail
    | .pt start, .pt end_ => do
      let s ← transform.apply start
      let e ← transform.apply end_
      let tail ← curveWalk layer stroke transform arcStart (second :: rest)
      return .line s e layer stroke :: tail

/-- `shapes.add_curve`: connected line segments and/or arcs. -/
def add_curve (mod : Footprint) (nodes : List CurveNode) (layer : String)
    (stroke : ℚ) (transform : Transform) : Except String Footprint :=
  (curveWalk layer stroke transform none nodes).map fun es =>
    ⟨mod.name, mod.description, mod.elements ++ es⟩

/-- `shapes.add_polygon`. The second component of the result is the state
of the caller's `nodes` list after the call: the `fill=False` branch
mutates the Python list in place (`nodes.append(nodes[0])`) before
emitting the curve, and on an empty list `nodes[0]` raises `IndexError`
before any append. The `fill=True` branch rebinds the local name only. -/
def add_polygon (mod : Footprint) (nodes : List Vec2) (layer : String)
    (stroke : ℚ) (fill : Bool) (transform : Transform) :
    (Except String Footprint) × List Vec2 :=
  if fill then
    (do
      let transformed ← nodes.mapM transform.apply
      return mod.append (.polygon transformed layer stroke),
     nodes)
  else
    match nodes with
    | [] => (.error "list index out of range", nodes)
    | first :: rest =>
      let extended := (first :: rest) ++ [first]
      (add_curve mod (extended.map .pt) layer stroke transform, extended)

/-- `shapes.add_text`. The source forwards `mirror` and `hide` through
`**kwargs` to `KicadModTree.Text`; the embedding takes them as explicit
parameters. -/
def add_text (mod : Footprint) (kind : TextKind) (text : String)
    (center : Vec2) (rotation : ℤ) (size : Option Vec2) (stroke : ℚ)
    (layer : String) (transform : Transform) (mirror : Bool) (hide : Bool) :
    Except String Footprint :=
  (transform.apply center).map fun at_ =>
    mod.append (.text kind text at_ (rotation + transform.rotate) size stroke
      layer mirror hide)

/-- `types.Switch`: type of switch connection. -/
inductive Switch where
  | NONE
  | SOLDER
  | HOTSWAP
  | HOTSWAP_ANTISHEAR
deriving DecidableEq

/-- `types.Mount`: type of switch mounting. -/
inductive Mount where
  | PCB
  | PLATE
deriving DecidableEq

/-- `types.Led`: type of switch LED. -/
inductive Led where
  | NONE
  | NORMAL
  | REVERSE
deriving DecidableEq

/-- `types.Stabilizer`: type of switch stabilizer. -/
inductive Stabilizer where
  | NONE
  | NORMAL
  | REVERSE
deriving DecidableEq

def UNIT_SIZE : ℚ := 19.05

def UNIT_SCALE : Transform := ⟨ORIGIN, 0, to_vec2 UNIT_SIZE⟩

/-- `model.LIB_PATH_PLACEHOLDER`. -/
def LIB_PATH_PLACEHOLDER : String := "\x7bLIBNAME\x7d"

/-- Modelled from the spec: `KicadModTree.util.paramUtil.round_to` is an
external collaborator; the spec reads "rounded to the nearest 0.05mm", so
this rounds to the nearest multiple of `prec`. At the exact values used by
the claims no tie occurs, so the tie-breaking convention is immaterial. -/
def round_to (value : ℚ) (prec : ℚ) : ℚ :=
  (round (value / prec) : ℤ) * prec

/-- `mx.get_mx_stabilizer_width`: horizontal spacing in mm between the
sides of a Cherry MX stabilizer; 0 if none is defined for the key size. -/
def get_mx_stabilizer_width (units : ℚ) : ℚ :=
  if units < 2 then 0
  else
    let units := if units < 3 then 2.25 else units
    round_to ((units - 1) * UNIT_SIZE) 0.05

/-- `mx.add_mx_reference`: reference label for a switch footprint. -/
def add_mx_reference (mod : Footprint) (switch : Switch)
    (transform : Transform) : Except String Footprint :=
  let (center, layer, mirror) :=
    if switch = Switch.HOTSWAP ∨ switch = Switch.HOTSWAP_ANTISHEAR then
      ((⟨0, -3.81⟩ : Vec2), B_FAB, true)
    else
      ((⟨0, 3⟩ : Vec2), USER_DRAWING, false)
  add_text mod .reference "REF**" center 0 none DEFAULT_STROKE layer
    transform mirror false

/-- `mx.add_mx_value`: value label for a switch footprint. -/
def add_mx_value (mod : Footprint) (show_value : Bool) (bottom : Bool)
    (transform : Transform) : Except String Footprint :=
  let VALUE_POS : Vec2 := ⟨0, -8⟩
  let VALUE_SIZE : Vec2 := ⟨1.27, 1.27⟩
  let mirror := bottom
  let layer := if bottom then B_SILK else F_SILK
  add_text mod .value "Val**" VALUE_POS 0 (some VALUE_SIZE) DEFAULT_STROKE
    layer (transform.with_rotation 0) mirror (!show_value)

/-- Python `%g` formatting of the rationals this package prints (integers
print without a decimal point; fractions print with trailing zeros
trimmed; all magnitudes used stay far below the `%g` exponent cutoff). -/
def fmtG (q : ℚ) : String :=
  if q.den = 1 then toString q.num
  else
    let n : ℤ := round (q * 1000000)
    let sgn := if n < 0 then "-" else ""
    let m := n.natAbs
    let fracStr := (toString (m % 1000000 + 1000000)).drop 1
    sgn ++ toString (m / 1000000) ++ "." ++
      fracStr.dropRightWhile (fun c => c = '0')

/-- Python `%.2f` formatting (two fixed decimals; the sizes formatted by
this package are exact centesimals, so no rounding tie can occur). -/
def fmtFixed2 (q : ℚ) : String :=
  let n : ℤ := round (q * 100)
  let sgn := if n < 0 then "-" else ""
  let m := n.natAbs
  sgn ++ toString (m / 100) ++ "." ++ (toString (m % 100 + 100)).drop 1

/-- `mx.add_mx_keycap_outline`: keycap outline plus unit-size label as
user drawings. -/
def add_mx_keycap_outline (mod : Footprint) (units : ℚ) (vertical : Bool) :
    Except String Footprint := do
  let LAYER := USER_DRAWING
  let STROKE : ℚ := 0.15
  let TEXT_POS : Vec2 := ⟨0, 8⟩
  let key_size : Vec2 := if vertical then ⟨1, units⟩ else ⟨units, 1⟩
  let mod ← add_rect mod ⟨0, 0⟩ key_size LAYER STROKE false UNIT_SCALE
  add_text mod .user (fmtG units ++ "U") TEXT_POS 0 none DEFAULT_STROKE
    LAYER IDENTITY false false

/-- `mx._add_pcb_mount`. -/
def _add_pcb_mount (mod : Footprint) (xfrm : Transform) :
    Except String Footprint := do
  let MOUNT1_POS : Vec2 := ⟨5.08, 0⟩
  let MOUNT2_POS : Vec2 := ⟨-5.08, 0⟩
  let MOUNT_SIZE : ℚ := 1.7
  let mod ← add_npth mod MOUNT1_POS MOUNT_SIZE xfrm
  add_npth mod MOUNT2_POS MOUNT_SIZE xfrm

/-- `mx._add_solder_pads`. -/
def _add_solder_pads (mod : Footprint) (transform : Transform) :
    Except String Footprint := do
  let PAD1_POS : Vec2 := ⟨2.54, -5.08⟩
  let PAD2_POS : Vec2 := ⟨-3.81, -2.54⟩
  let SIZE : Vec2 := to_vec2 2.2
  let DRILL : Vec2 := to_vec2 1.5
  let mod ← add_tht_pad mod 1 PAD1_POS SIZE DRILL .circle LAYERS_THT transform
  add_tht_pad mod 2 PAD2_POS SIZE DRILL .circle LAYERS_THT transform

/-- `mx._add_hotswap_courtyard`. -/
def _add_hotswap_courtyard (mod : Footprint) (xfrm : Transform) :
    Except String Footprint :=
  let STROKE : ℚ := 0.127
  let LAYER := "B.CrtYd"
  let POINTS : List CurveNode := [
    .pt ⟨-0.4, -2.6⟩,
    .pt ⟨5.3, -2.6⟩,
    .pt ⟨5.3, -7⟩,
    .pt ⟨-4, -7⟩,
    .arcCenter (-4) (-4.5),
    .pt ⟨-6.5, -4.5⟩,
    .pt ⟨-6.5, -0.6⟩,
    .pt ⟨-2.4, -0.6⟩,
    .arcCenter (-0.4) (-0.6),
    .pt ⟨-0.4, -2.6⟩]
  add_curve mod POINTS LAYER STROKE xfrm

/-- `mx._add_hotswap_fab`. -/
def _add_hotswap_fab (mod : Footprint) (xfrm : Transform) :
    Except String Footprint := do
  let LAYER := "B.Fab"
  let MOUNT1_POS : Vec2 := ⟨-3.81, -2.54⟩
  let MOUNT2_POS : Vec2 := ⟨2.54, -5.08⟩
  let RADIUS : ℚ := 1.5
  let STROKE : ℚ := 0.1
  let POINTS : List CurveNode := [
    .pt ⟨-0.5, -2.7⟩,
    .pt ⟨5.2, -2.7⟩,
    .pt ⟨5.2, -6.9⟩,
    .pt ⟨-4, -6.9⟩,
    .arcCenter (-4) (-4.5),
    .pt ⟨-6.4, -4.5⟩,
    .pt ⟨-6.4, -0.7⟩,
    .pt ⟨-2.5, -0.7⟩,
    .arcCenter (-0.4) (-0.6),
    .pt ⟨-0.5, -2.7⟩]
  let mod ← add_curve mod POINTS LAYER STROKE xfrm
  let mod ← add_circle mod MOUNT1_POS RADIUS LAYER STROKE xfrm
  add_circle mod MOUNT2_POS RADIUS LAYER STROKE xfrm

/-- `mx._add_hotswap_socket`. -/
def _add_hotswap_socket (mod : Footprint) (xfrm : Transform) :
    Except String Footprint := do
  let PAD1_POS : Vec2 := ⟨-7.085, -2.54⟩
  let PAD2_POS : Vec2 := ⟨5.842, -5.08⟩
  let PAD_SIZE : Vec2 := ⟨2.55, 2.5⟩
  let PAD_LAYERS := ["B.Cu", "B.Mask", "B.Paste"]
  let MOUNT1_POS : Vec2 := ⟨-3.81, -2.54⟩
  let MOUNT2_POS : Vec2 := ⟨2.54, -5.08⟩
  let MOUNT_SIZE : ℚ := 3
  let mod ← add_smt_pad mod 1 PAD1_POS PAD_SIZE .rect PAD_LAYERS xfrm
  let mod ← add_smt_pad mod 2 PAD2_POS PAD_SIZE .rect PAD_LAYERS xfrm
  let mod ← add_npth mod MOUNT1_POS MOUNT_SIZE xfrm
  let mod ← add_npth mod MOUNT2_POS MOUNT_SIZE xfrm
  let mod ← _add_hotswap_courtyard mod xfrm
  _add_hotswap_fab mod xfrm

/-- `mx._add_hotswap_socket_antishear`. -/
def _add_hotswap_socket_antishear (mod : Footprint) (xfrm : Transform) :
    Except String Footprint := do
  let PAD1_POS : Vec2 := ⟨-7.085, -2.54⟩
  let PAD2_POS : Vec2 := ⟨5.842, -5.08⟩
  let PAD_SIZE : Vec2 := ⟨4.5, 2.5⟩
  let PAD_LAYERS := ["B.Cu"]
  let PASTE1_POS : Vec2 := ⟨-7.085, -2.54⟩
  let PASTE2_POS : Vec2 := ⟨5.815, -5.08⟩
  let PASTE_SIZE : Vec2 := ⟨2.55, 2.5⟩
  let PASTE_LAYERS := ["B.Mask", "B.Paste"]
  let MOUNT1_POS : Vec2 := ⟨-3.81, -2.54⟩
  let MOUNT2_POS : Vec2 := ⟨2.54, -5.08⟩
  let MOUNT_SIZE : Vec2 := to_vec2 4
  let MOUNT_DRILL : Vec2 := to_vec2 3
  let VIA11_POS : Vec2 := ⟨-8.89, -3.302⟩
  let VIA12_POS : Vec2 := ⟨-8.89, -1.778⟩
  let VIA21_POS : Vec2 := ⟨7.62, -5.842⟩
  let VIA22_POS : Vec2 := ⟨7.62, -4.318⟩
  let VIA_SIZE : Vec2 := to_vec2 0.8
  let VIA_DRILL : Vec2 := to_vec2 0.4
  let VIA := ["*.Cu"]
  let mod ← add_smt_pad mod 1 PAD1_POS PAD_SIZE .rect PAD_LAYERS xfrm
  let mod ← add_smt_pad mod 2 PAD2_POS PAD_SIZE .rect PAD_LAYERS xfrm
  let mod ← add_smt_pad mod 1 PASTE1_POS PASTE_SIZE .rect PASTE_LAYERS xfrm
  let mod ← add_smt_pad mod 2 PASTE2_POS PASTE_SIZE .rect PASTE_LAYERS xfrm
  let mod ← add_tht_pad mod 1 MOUNT1_POS MOUNT_SIZE MOUNT_DRILL .circle LAYERS_THT xfrm
  let mod ← add_tht_pad mod 2 MOUNT2_POS MOUNT_SIZE MOUNT_DRILL .circle LAYERS_THT xfrm
  let mod ← add_tht_pad mod 1 VIA11_POS VIA_SIZE VIA_DRILL .circle VIA xfrm
  let mod ← add_tht_pad mod 1 VIA12_POS VIA_SIZE VIA_DRILL .circle VIA xfrm
  let mod ← add_tht_pad mod 2 VIA21_POS VIA_SIZE VIA_DRILL .circle VIA xfrm
  let mod ← add_tht_pad mod 2 VIA22_POS VIA_SIZE VIA_DRILL .circle VIA xfrm
  let mod ← _add_hotswap_courtyard mod xfrm
  _add_hotswap_fab mod xfrm

/-- `mx.add_mx_switch`: MX switch body. -/
def add_mx_switch (mod : Footprint) (switch : Switch) (mount : Mount)
    (front_silk : Bool) (transform : Transform) : Except String Footprint := do
  if switch = Switch.NONE then
    return mod
  let F_FAB_SIZE : ℚ := 12.7
  let F_FAB_STROKE : ℚ := 0.1
  let F_COURTYARD_SIZE : ℚ := 13.2
  let F_COURTYARD_STROKE : ℚ := 0.05
  let F_SILK_SIZE : ℚ := 13.87
  let F_SILK_STROKE : ℚ := 0.12
  let CENTER_HOLE_SIZE : ℚ := 4
  let mod ← if switch = Switch.SOLDER then
      add_square mod ⟨0, 0⟩ F_FAB_SIZE F_FAB F_FAB_STROKE false transform
    else pure mod
  let mod ← add_square mod ⟨0, 0⟩ F_COURTYARD_SIZE F_COURT F_COURTYARD_STROKE
    false transform
  let mod ← if front_silk then
      add_square mod ⟨0, 0⟩ F_SILK_SIZE F_SILK F_SILK_STROKE false transform
    else pure mod
  let mod ← add_npth mod ⟨0, 0⟩ CENTER_HOLE_SIZE transform
  let mod ← if mount = Mount.PCB then _add_pcb_mount mod transform
    else pure mod
  match switch with
  | .SOLDER => _add_solder_pads mod transform
  | .HOTSWAP => _add_hotswap_socket mod transform
  | .HOTSWAP_ANTISHEAR => _add_hotswap_socket_antishear mod transform
  | .NONE => pure mod

/-- `mx.add_mx_stabilizer`: Cherry stabilizer holes. -/
def add_mx_stabilizer (mod : Footprint) (units : ℚ) (stabilizer : Stabilizer)
    (vertical : Bool) : Except String Footprint := do
  if stabilizer = Stabilizer.NONE then
    return mod
  let width := get_mx_stabilizer_width units
  if width = 0 then
    return mod
  let TOP_SIZE : ℚ := 3.05
  let BOTTOM_SIZE : ℚ := 4
  let TOP_Y : ℚ := -7
  let BOTTOM_Y : ℚ := TOP_Y + 15.24
  let transform := IDENTITY.with_rotation (if vertical then -90 else 0)
  let transform := if stabilizer = Stabilizer.REVERSE then
      transform.with_scale ⟨1, -1⟩
    else transform
  let top_left : Vec2 := ⟨-width / 2, TOP_Y⟩
  let top_right : Vec2 := ⟨width / 2, TOP_Y⟩
  let bottom_left : Vec2 := ⟨-width / 2, BOTTOM_Y⟩
  let bottom_right : Vec2 := ⟨width / 2, BOTTOM_Y⟩
  let mod ← add_npth mod top_left TOP_SIZE transform
  let mod ← add_npth mod top_right TOP_SIZE transform
  let mod ← add_npth mod bottom_left BOTTOM_SIZE transform
  add_npth mod bottom_right BOTTOM_SIZE transform

/-- `mx.add_mx_led`: LED through-hole pads. -/
def add_mx_led (mod : Footprint) (switch : Switch) (led : Led)
    (transform : Transform) : Except String Footprint := do
  if led = Led.NONE then
    return mod
  let PAD_X : ℚ := 1.27
  let PAD_Y : ℚ := 5.08
  let PAD_SIZE : Vec2 := ⟨1.905, 1.905⟩
  let PAD_DRILL : Vec2 := to_vec2 1.04
  let transform := if led = Led.REVERSE then transform.with_scale ⟨-1, 1⟩
    else transform
  let switch_pins : ℤ := if switch = Switch.NONE then 0 else 2
  let mod ← add_tht_pad mod (switch_pins + 1) ⟨-PAD_X, PAD_Y⟩ PAD_SIZE
    PAD_DRILL .circle LAYERS_THT transform
  add_tht_pad mod (switch_pins + 2) ⟨PAD_X, PAD_Y⟩ PAD_SIZE PAD_DRILL .rect
    LAYERS_THT transform

/-- `mx._add_kailh_hotswap_model`: the "at" field is in inches while the
translate is in mm, hence the division by 25.4. -/
def _add_kailh_hotswap_model (mod : Footprint) (transform : Transform) :
    Footprint :=
  let HOTSWAP_MODEL := LIB_PATH_PLACEHOLDER ++ "/3dshapes/CPG151101S11.step"
  let HOTSWAP_POS : Vec3 := ⟨0, 0, 0⟩
  let HOTSWAP_SCALE : Vec3 := ⟨1, 1, 1⟩
  let angle : Vec3 := ⟨0, 0, (transform.rotate : ℚ)⟩
  let center : Vec3 :=
    (⟨transform.translate.x, transform.translate.y, 0⟩ + HOTSWAP_POS : Vec3)
  let center := center.sdiv 25.4
  mod.append (.model HOTSWAP_MODEL center HOTSWAP_SCALE angle)

/-- `mx.add_mx_3d_model`: 3D models for mounting hardware; only the
hotswap variants have one. -/
def add_mx_3d_model (mod : Footprint) (switch : Switch)
    (transform : Transform) : Footprint :=
  match switch with
  | .HOTSWAP => _add_kailh_hotswap_model mod transform
  | .HOTSWAP_ANTISHEAR => _add_kailh_hotswap_model mod transform
  | _ => mod

/-- `mx._SWITCH_NAME`. -/
def _SWITCH_NAME : Switch → List String
  | .NONE => ["NoSwitch"]
  | .SOLDER => []
  | .HOTSWAP => ["Hotswap"]
  | .HOTSWAP_ANTISHEAR => ["Hotswap", "Antishear"]

/-- `mx._SWITCH_DESC`. -/
def _SWITCH_DESC : Switch → List String
  | .NONE => ["no switch"]
  | .SOLDER => []
  | .HOTSWAP => ["hotswap"]
  | .HOTSWAP_ANTISHEAR => ["hotswap", "anti-shear pads"]

/-- `mx._MOUNT_NAME`. -/
def _MOUNT_NAME : Mount → List String
  | .PCB => []
  | .PLATE => ["Plate"]

/-- `mx._MOUNT_DESC`. -/
def _MOUNT_DESC : Mount → List String
  | .PCB => ["PCB mount"]
  | .PLATE => ["plate mount"]

/-- `mx._LED_NAME`. -/
def _LED_NAME : Led → List String
  | .NONE => []
  | .NORMAL => ["LED"]
  | .REVERSE => ["ReversedLED"]

/-- `mx._LED_DESC`. -/
def _LED_DESC : Led → List String
  | .NONE => []
  | .NORMAL => ["LED"]
  | .REVERSE => ["reverse polarity LED"]

/-- `mx._STAB_NAME`. -/
def _STAB_NAME : Stabilizer → List String
  | .NONE => ["NoStabilizers"]
  | .NORMAL => []
  | .REVERSE => ["ReversedStabilizers"]

/-- `mx._STAB_DESC`. -/
def _STAB_DESC : Stabilizer → List String
  | .NONE => ["no stabilizers"]
  | .NORMAL => []
  | .REVERSE => ["reversed stabilizers"]

/-- `mx._get_offset_name`. -/
def _get_offset_name (offset : Vec2) : List String :=
  if offset.x = 0 ∧ offset.y = 0 then []
  else
    ["Offset", fmtG offset.x ++ "u"] ++
      (if offset.y ≠ 0 then [fmtG offset.y ++ "u"] else [])

/-- `mx._get_offset_desc`. -/
def _get_offset_desc (offset : Vec2) : List String :=
  if offset.x = 0 ∧ offset.y = 0 then []
  else
    ["offset " ++ fmtG offset.x ++ "u" ++
      (if offset.y ≠ 0 then " x " ++ fmtG offset.y ++ "u" else "")]

/-- `mx._get_angle_name`. -/
def _get_angle_name (angle : ℤ) : List String :=
  if angle = 0 then []
  else ["Rotate", toString (normalize_angle angle)]

/-- `mx._get_angle_desc`. -/
def _get_angle_desc (angle : ℤ) : List String :=
  if angle = 0 then []
  else ["switch rotated " ++ toString (normalize_angle angle)]

/-- The `size` parameter of `mx._get_footprint_name_desc`: a key size in
units or the literal `"iso"`. -/
inductive MxSize where
  | u (units : ℚ)
  | iso
deriving DecidableEq

/-- `mx._get_footprint_name_desc`: derive the footprint name and
description from the option combination. -/
def _get_footprint_name_desc (size : MxSize) (switch : Switch)
    (mount : Mount) (led : Led) (stabilizer : Stabilizer) (vertical : Bool)
    (switch_offset : Vec2) (switch_angle : ℤ) : String × String :=
  let (name_size, desc_size, has_stab) :=
    match size with
    | .iso => ("ISOEnter", "ISO Enter", true)
    | .u q => (fmtFixed2 q ++ "u", fmtFixed2 q ++ "u",
        get_mx_stabilizer_width q ≠ 0)
  let name := ["Cherry_MX", name_size] ++
    _SWITCH_NAME switch ++
    _MOUNT_NAME mount ++
    (if vertical then ["Vertical"] else []) ++
    _get_offset_name switch_offset ++
    _get_angle_name switch_angle ++
    _LED_NAME led ++
    (if has_stab then _STAB_NAME stabilizer else [])
  let desc := ["Cherry MX keyswitch", desc_size] ++
    _SWITCH_DESC switch ++
    _MOUNT_DESC mount ++
    (if vertical then ["vertical"] else []) ++
    _get_offset_desc switch_offset ++
    _get_angle_desc switch_angle ++
    _LED_DESC led ++
    (if has_stab then _STAB_DESC stabilizer else [])
  (String.intercalate "_" name, String.intercalate ", " desc)

/-- `mx.make_mx_switch`: generate a footprint for a Cherry MX switch. -/
def make_mx_switch (units : ℚ) (switch : Switch) (mount : Mount) (led : Led)
    (stabilizer : Stabilizer) (vertical : Bool) (front_silk : Bool)
    (show_value : Bool) (switch_offset : Vec2) (switch_angle : ℤ) :
    Except String Footprint := do
  let (name, desc) := _get_footprint_name_desc (.u units) switch mount led
    stabilizer vertical switch_offset switch_angle
  let mod : Footprint := ⟨name, desc, []⟩
  let transform : Transform :=
    ⟨switch_offset.smul UNIT_SIZE, switch_angle, ⟨1, 1⟩⟩
  let mod ← add_mx_reference mod switch transform
  let mod ← add_mx_value mod show_value true transform
  let mod ← add_mx_switch mod switch mount front_silk transform
  let mod ← add_mx_stabilizer mod units stabilizer vertical
  let mod ← add_mx_led mod switch led transform
  let mod ← add_mx_keycap_outline mod units vertical
  return add_mx_3d_model mod switch transform

/-- Whether a curve node sequence contains two adjacent `ArcCenter`
markers — the structural invariant violation `shapes.add_curve` rejects. -/
def hasAdjacentArcCenters : List CurveNode → Bool
  | .arcCenter _ _ :: .arcCenter _ _ :: _ => true
  | _ :: rest => hasAdjacentArcCenters rest
  | [] => false

/-
Batteries marks `Rat` arithmetic `@[irreducible]`; the claims here are
settled by exact evaluation of that arithmetic, so restore the default
reducibility for this verification development (kernel checking is
unaffected).
-/
attribute [local semireducible] Rat.add Rat.mul Rat.sub Rat.inv
  Rat.ofScientific

@[simp]
theorem Vec2.mul_def (a b : Vec2) : a * b = ⟨a.x * b.x, a.y * b.y⟩ := rfl

@[simp]
theorem Vec2.add_def (a b : Vec2) : a + b = ⟨a.x + b.x, a.y + b.y⟩ := rfl

@[simp]
theorem Vec2.sub_def (a b : Vec2) : a - b = ⟨a.x - b.x, a.y - b.y⟩ := rfl

/-- A normalized multiple of 90 degrees is one of the four quadrants. -/
theorem normalize_angle_quadrant (θ : ℤ) (h : 90 ∣ θ) :
    normalize_angle θ = 0 ∨ normalize_angle θ = 90 ∨
    normalize_angle θ = 180 ∨ normalize_angle θ = 270 := by
  unfold normalize_angle
  omega

/-- `rotate_point` on a multiple of 90 degrees succeeds, with the value
selected by the normalized angle. -/
theorem rotate_point_ok (p : Vec2) (θ : ℤ) (h : 90 ∣ θ) :
    rotate_point p θ = .ok (
      if normalize_angle θ = 0 then p
      else if normalize_angle θ = 90 then ⟨-p.y, p.x⟩
      else if normalize_angle θ = 180 then ⟨-p.x, -p.y⟩
      else ⟨p.y, -p.x⟩) := by
  rcases normalize_angle_quadrant θ h with h' | h' | h' | h' <;>
    simp [rotate_point, h']

/-- `rotate_rect` on a multiple of 90 degrees succeeds, preserving the
dimensions for 0/180 and swapping them for 90/270. -/
theorem rotate_rect_ok (d : Vec2) (θ : ℤ) (h : 90 ∣ θ) :
    rotate_rect d θ = .ok (
      if normalize_angle θ = 0 ∨ normalize_angle θ = 180 then d
      else ⟨d.y, d.x⟩) := by
  rcases normalize_angle_quadrant θ h with h' | h' | h' | h' <;>
    simp [rotate_rect, h']

/-- Applying a transform whose rotation is a multiple of 90 never fails. -/
theorem Transform.apply_ok (t : Transform) (p : Vec2) (h : 90 ∣ t.rotate) :
    ∃ q, t.apply p = .ok q := by
  unfold Transform.apply
  rw [rotate_point_ok _ _ h]
  exact ⟨_, rfl⟩

/-- The identity transform maps every point to itself. -/
theorem IDENTITY_apply (p : Vec2) : IDENTITY.apply p = .ok p := by
  obtain ⟨x, y⟩ := p
  simp [Transform.apply, IDENTITY, ORIGIN, rotate_point, normalize_angle,
    Except.map]

/-- C6: For every Transform t and every point p, `t.apply p` equals
`rotate_point (p * t.scale) t.rotate + t.translate` — scale first, then
quadrant rotation, then translation, in that fixed order. -/
theorem spec_c6_transform_order (t : Transform) (p : Vec2) :
    t.apply p =
      (rotate_point (p * t.scale) t.rotate).map (fun q => q + t.translate) :=
  rfl

/-- C8: For every integer angle θ (including negative θ),
`normalize_angle θ = ((θ % 360) + 360) % 360` lies in [0, 360), and
`normalize_angle (θ + 360 * k) = normalize_angle θ` for every integer k. -/
theorem spec_c8_normalize_angle (θ k : ℤ) :
    normalize_angle θ = ((θ % 360) + 360) % 360 ∧
    0 ≤ normalize_angle θ ∧ normalize_angle θ < 360 ∧
    normalize_angle (θ + 360 * k) = normalize_angle θ := by
  refine ⟨rfl, ?_, ?_, ?_⟩ <;> simp only [normalize_angle] <;> omega

/-- C9: `rotate_point` and `rotate_rect` fail with the error "angle must
be a multiple of 90" exactly when the normalized angle is not one of
0/90/180/270; on a multiple of 90 they never raise it, and `rotate_point`
maps 0 to the identity, 90 to (-y,x), 180 to (-x,-y) and 270 to (y,-x). -/
theorem spec_c9_rotate_errors (p d : Vec2) (θ : ℤ) :
    (¬(normalize_angle θ = 0 ∨ normalize_angle θ = 90 ∨
        normalize_angle θ = 180 ∨ normalize_angle θ = 270) →
      rotate_point p θ = .error "angle must be a multiple of 90" ∧
      rotate_rect d θ = .error "angle must be a multiple of 90") ∧
    (90 ∣ θ →
      rotate_point p θ ≠ .error "angle must be a multiple of 90" ∧
      rotate_rect d θ ≠ .error "angle must be a multiple of 90" ∧
      rotate_point p θ = .ok (
        if normalize_angle θ = 0 then p
        else if normalize_angle θ = 90 then ⟨-p.y, p.x⟩
        else if normalize_angle θ = 180 then ⟨-p.x, -p.y⟩
        else ⟨p.y, -p.x⟩)) := by
  constructor
  · intro h
    push_neg at h
    obtain ⟨h0, h90, h180, h270⟩ := h
    constructor <;> simp [rotate_point, rotate_rect, h0, h90, h180, h270]
  · intro h
    refine ⟨?_, ?_, rotate_point_ok p θ h⟩
    · rw [rotate_point_ok p θ h]
      exact fun hc => Except.noConfusion hc
    · rw [rotate_rect_ok d θ h]
      exact fun hc => Except.noConfusion hc

/-- C9 witness: at the concrete angles 45 (not a multiple of 90) and 450
(a multiple of 90, normalizing to 90). -/
theorem spec_c9_rotate_errors_witness :
    rotate_point ⟨1, 2⟩ 45 = .error "angle must be a multiple of 90" ∧
    rotate_rect ⟨3, 4⟩ 45 = .error "angle must be a multiple of 90" ∧
    rotate_point ⟨1, 2⟩ 450 = .ok ⟨-2, 1⟩ := by
  have h1 := (spec_c9_rotate_errors ⟨1, 2⟩ ⟨3, 4⟩ 45).1 (by decide)
  have h2 := (spec_c9_rotate_errors ⟨1, 2⟩ ⟨3, 4⟩ 450).2 (by decide)
  refine ⟨h1.1, h1.2, ?_⟩
  rw [h2.2.2]
  norm_num [normalize_angle]

/-- C2 counterexample: the claim's table says
`width(2) == round_to(1*19.05, 0.05) == 19.05`, but the code collapses
every size in [2,3) to 2.25 units before applying the formula, so
`width(2) = round_to(1.25*19.05, 0.05) = 23.8 ≠ 19.05`. -/
theorem spec_c2_stab_width_cex :
    get_mx_stabilizer_width 2 = 23.8 ∧
    round_to (1 * 19.05) 0.05 = 19.05 ∧
    get_mx_stabilizer_width 2 ≠ round_to (1 * 19.05) 0.05 ∧
    get_mx_stabilizer_width 2 ≠ 19.05 := by
  refine ⟨?_, ?_, ?_, ?_⟩ <;>
    norm_num [get_mx_stabilizer_width, round_to, round_eq, UNIT_SIZE,
      Int.floor_eq_iff]

/-- C2 amended: the stabilizer width value table of
`get_mx_stabilizer_width`, with `width(2)` fixed to the 2.25-unit spacing:
`width(1) = width(1.99) = 0`;
`width(2) = width(2.25) = width(2.5) = width(2.75)
          = round_to((2.25-1)*19.05, 0.05) = 23.8`
(every size in [2,3) collapses to the 2.25-unit spacing); and
`width(6) = round_to(5*19.05, 0.05) = 95.25`. -/
theorem spec_c2_stab_width_table :
    get_mx_stabilizer_width 1 = 0 ∧
    get_mx_stabilizer_width 1.99 = 0 ∧
    get_mx_stabilizer_width 2 = round_to ((2.25 - 1) * 19.05) 0.05 ∧
    get_mx_stabilizer_width 2 = get_mx_stabilizer_width 2.25 ∧
    get_mx_stabilizer_width 2.25 = get_mx_stabilizer_width 2.5 ∧
    get_mx_stabilizer_width 2.5 = get_mx_stabilizer_width 2.75 ∧
    get_mx_stabilizer_width 2.75 = 23.8 ∧
    get_mx_stabilizer_width 6 = round_to (5 * 19.05) 0.05 ∧
    get_mx_stabilizer_width 6 = 95.25 := by
  refine ⟨?_, ?_, ?_, ?_, ?_, ?_, ?_, ?_, ?_⟩ <;>
    norm_num [get_mx_stabilizer_width, round_to, round_eq, UNIT_SIZE,
      Int.floor_eq_iff]

/-- C7: For every surface-mount pad added with a transform whose rotation
is a multiple of 90, the emitted pad's size is `rotate_rect size t.rotate`
(width/height preserved for 0/180, swapped for 90/270) while its position
is the full `t.apply center`. -/
theorem spec_c7_smt_pad_size (mod : Footprint) (n : ℤ) (center size : Vec2)
    (shape : PadShape) (layers : List String) (t : Transform)
    (h : 90 ∣ t.rotate) :
    ∃ pos sz, t.apply center = .ok pos ∧ rotate_rect size t.rotate = .ok sz ∧
      ((normalize_angle t.rotate = 0 ∨ normalize_angle t.rotate = 180) →
        sz = size) ∧
      ((normalize_angle t.rotate = 90 ∨ normalize_angle t.rotate = 270) →
        sz = ⟨size.y, size.x⟩) ∧
      add_smt_pad mod n center size shape layers t =
        .ok (mod.append (.pad (some n) .smt shape layers pos sz none)) := by
  obtain ⟨pos, hpos⟩ := Transform.apply_ok t center h
  refine ⟨pos, _, hpos, rotate_rect_ok size t.rotate h, ?_, ?_, ?_⟩
  · intro h'
    simp [h']
  · intro h'
    rcases h' with h' | h' <;>
      rcases normalize_angle_quadrant t.rotate h with h'' | h'' | h'' | h'' <;>
        simp [h''] at h' ⊢
  · simp [add_smt_pad, hpos, rotate_rect_ok size t.rotate h]
    rfl

/-- C7 witness: at a transform rotating 90 degrees, the 2x1 pad is emitted
with swapped dimensions 1x2 at the transformed center. -/
theorem spec_c7_smt_pad_size_witness :
    ∃ pos sz,
      (Transform.mk ⟨10, 0⟩ 90 ⟨1, 1⟩).apply ⟨3, 4⟩ = .ok pos ∧
      rotate_rect ⟨2, 1⟩ (Transform.mk ⟨10, 0⟩ 90 ⟨1, 1⟩).rotate = .ok sz ∧
      ((normalize_angle (Transform.mk ⟨10, 0⟩ 90 ⟨1, 1⟩).rotate = 0 ∨
        normalize_angle (Transform.mk ⟨10, 0⟩ 90 ⟨1, 1⟩).rotate = 180) →
        sz = ⟨2, 1⟩) ∧
      ((normalize_angle (Transform.mk ⟨10, 0⟩ 90 ⟨1, 1⟩).rotate = 90 ∨
        normalize_angle (Transform.mk ⟨10, 0⟩ 90 ⟨1, 1⟩).rotate = 270) →
        sz = ⟨1, 2⟩) ∧
      add_smt_pad ⟨"", "", []⟩ 1 ⟨3, 4⟩ ⟨2, 1⟩ .rect LAYERS_SMT
          (Transform.mk ⟨10, 0⟩ 90 ⟨1, 1⟩) =
        .ok (Footprint.append ⟨"", "", []⟩
          (.pad (some 1) .smt .rect LAYERS_SMT pos sz none)) :=
  spec_c7_smt_pad_size ⟨"", "", []⟩ 1 ⟨3, 4⟩ ⟨2, 1⟩ .rect LAYERS_SMT
    (Transform.mk ⟨10, 0⟩ 90 ⟨1, 1⟩) (by decide)

/-- C1 counterexample: at placement rotation 90 the reference label is
emitted with rotation 90, not 0 — `add_mx_reference` passes the placement
transform to `add_text` without resetting its rotation (unlike
`add_mx_value`, which uses `with_rotation 0`). -/
theorem spec_c1_reference_rotation_cex :
    add_mx_reference ⟨"", "", []⟩ .SOLDER ⟨⟨0, 0⟩, 90, ⟨1, 1⟩⟩ ≠
      .ok ⟨"", "", [.text .reference "REF**" ⟨-3, 0⟩ 0 none DEFAULT_STROKE
        USER_DRAWING false false]⟩ ∧
    add_mx_reference ⟨"", "", []⟩ .SOLDER ⟨⟨0, 0⟩, 90, ⟨1, 1⟩⟩ =
      .ok ⟨"", "", [.text .reference "REF**" ⟨-3, 0⟩ 90 none DEFAULT_STROKE
        USER_DRAWING false false]⟩ := by
  constructor <;> decide

/-- C1 amended: for every placement transform with rotation a multiple of
90, the emitted reference label's rotation equals the placement rotation
(not 0); hotswap variants place it on the back fabrication layer mirrored,
all other variants on the neutral user drawing layer unmirrored. -/
theorem spec_c1_reference_label (mod : Footprint) (switch : Switch)
    (tr : Vec2) (angle : ℤ) (h : 90 ∣ angle) :
    ∃ pos,
      (Transform.mk tr angle ⟨1, 1⟩).apply
        (if switch = Switch.HOTSWAP ∨ switch = Switch.HOTSWAP_ANTISHEAR then
          ⟨0, -3.81⟩ else ⟨0, 3⟩) = .ok pos ∧
      add_mx_reference mod switch ⟨tr, angle, ⟨1, 1⟩⟩ =
        .ok (mod.append (.text .reference "REF**" pos angle none
          DEFAULT_STROKE
          (if switch = Switch.HOTSWAP ∨ switch = Switch.HOTSWAP_ANTISHEAR
            then B_FAB else USER_DRAWING)
          (if switch = Switch.HOTSWAP ∨ switch = Switch.HOTSWAP_ANTISHEAR
            then true else false)
          false)) := by
  by_cases hs : switch = Switch.HOTSWAP ∨ switch = Switch.HOTSWAP_ANTISHEAR
  · obtain ⟨pos, hpos⟩ :=
      Transform.apply_ok ⟨tr, angle, ⟨1, 1⟩⟩ ⟨0, -3.81⟩ h
    refine ⟨pos, ?_, ?_⟩
    · simpa [hs] using hpos
    · simp [add_mx_reference, add_text, hs, hpos, Except.map]
  · obtain ⟨pos, hpos⟩ := Transform.apply_ok ⟨tr, angle, ⟨1, 1⟩⟩ ⟨0, 3⟩ h
    refine ⟨pos, ?_, ?_⟩
    · simpa [hs] using hpos
    · simp [add_mx_reference, add_text, hs, hpos, Except.map]

/-- C1 witness: a hotswap reference label under a 270-degree placement. -/
theorem spec_c1_reference_label_witness :
    ∃ pos,
      (Transform.mk ⟨19.05, 0⟩ 270 ⟨1, 1⟩).apply
        (if Switch.HOTSWAP = Switch.HOTSWAP ∨
            Switch.HOTSWAP = Switch.HOTSWAP_ANTISHEAR then
          ⟨0, -3.81⟩ else ⟨0, 3⟩) = .ok pos ∧
      add_mx_reference ⟨"", "", []⟩ .HOTSWAP ⟨⟨19.05, 0⟩, 270, ⟨1, 1⟩⟩ =
        .ok (Footprint.append ⟨"", "", []⟩ (.text .reference "REF**" pos 270
          none DEFAULT_STROKE
          (if Switch.HOTSWAP = Switch.HOTSWAP ∨
              Switch.HOTSWAP = Switch.HOTSWAP_ANTISHEAR
            then B_FAB else USER_DRAWING)
          (if Switch.HOTSWAP = Switch.HOTSWAP ∨
              Switch.HOTSWAP = Switch.HOTSWAP_ANTISHEAR
            then true else false)
          false)) :=
  spec_c1_reference_label ⟨"", "", []⟩ .HOTSWAP ⟨19.05, 0⟩ 270 (by decide)

/-- C4: the name/description derivation is a pure deterministic function
of the option tuple; every default-valued option fragment is empty (so the
all-default name is just the base and size fragments); and for key sizes
with zero stabilizer width the stabilizer option contributes no fragment
at all. -/
theorem spec_c4_name_derivation :
    (∀ (size : MxSize) (switch : Switch) (mount : Mount) (led : Led)
        (stab : Stabilizer) (vertical : Bool) (offset : Vec2) (angle : ℤ),
      _get_footprint_name_desc size switch mount led stab vertical offset
          angle =
        _get_footprint_name_desc size switch mount led stab vertical offset
          angle) ∧
    (_SWITCH_NAME .SOLDER = [] ∧ _MOUNT_NAME .PCB = [] ∧
      _LED_NAME .NONE = [] ∧ _STAB_NAME .NORMAL = [] ∧
      _get_offset_name ⟨0, 0⟩ = [] ∧ _get_angle_name 0 = []) ∧
    (∀ size : MxSize,
      (_get_footprint_name_desc size .SOLDER .PCB .NONE .NORMAL false ⟨0, 0⟩
          0).1 =
        "Cherry_MX_" ++ (match size with
          | .iso => "ISOEnter"
          | .u q => fmtFixed2 q ++ "u")) ∧
    (∀ (q : ℚ) (switch : Switch) (mount : Mount) (led : Led)
        (stab : Stabilizer) (vertical : Bool) (offset : Vec2) (angle : ℤ),
      q < 2 →
      _get_footprint_name_desc (.u q) switch mount led stab vertical offset
          angle =
        _get_footprint_name_desc (.u q) switch mount led .NORMAL vertical
          offset angle) := by
  refine ⟨fun _ _ _ _ _ _ _ _ => rfl, by decide, ?_, ?_⟩
  · intro size
    cases size with
    | u q =>
      simp [_get_footprint_name_desc, _SWITCH_NAME, _MOUNT_NAME, _LED_NAME,
        _STAB_NAME, _get_offset_name, _get_angle_name, String.intercalate,
        List.intersperse]
      rfl
    | iso => decide
  · intro q switch mount led stab vertical offset angle hq
    have hw : get_mx_stabilizer_width q = 0 := by
      simp [get_mx_stabilizer_width, hq]
    simp [_get_footprint_name_desc, hw]

/-- C4 witness: at size 1.5 (stabilizer width 0) the `Stabilizer.NONE`
option contributes no fragment. -/
theorem spec_c4_name_derivation_witness :
    _get_footprint_name_desc (.u 1.5) .HOTSWAP .PLATE .NORMAL .NONE true
        ⟨0.5, 0⟩ 90 =
      _get_footprint_name_desc (.u 1.5) .HOTSWAP .PLATE .NORMAL .NORMAL true
        ⟨0.5, 0⟩ 90 :=
  spec_c4_name_derivation.2.2.2 1.5 .HOTSWAP .PLATE .NORMAL .NONE true
    ⟨0.5, 0⟩ 90 (by norm_num)

/-- Under the identity transform, the curve walk fails with the
adjacent-marker error from any state whenever the node sequence contains
two adjacent arc centers. -/
theorem curveWalk_adjacent_error (layer : String) (stroke : ℚ)
    (st : Option Vec2) (ns : List CurveNode)
    (h : hasAdjacentArcCenters ns = true) :
    curveWalk layer stroke IDENTITY st ns =
      .error "Cannot have two adjacent arc centers" := by
  induction ns generalizing st with
  | nil => simp [hasAdjacentArcCenters] at h
  | cons a tail ih =>
    cases tail with
    | nil => cases a <;> simp [hasAdjacentArcCenters] at h
    | cons b rest =>
      cases a with
      | arcCenter ax ay =>
        cases b with
        | arcCenter bx by_ => simp [curveWalk]
        | pt e =>
          have h' : hasAdjacentArcCenters (CurveNode.pt e :: rest) = true := by
            simpa [hasAdjacentArcCenters] using h
          simp [curveWalk, IDENTITY_apply, ih st h', Bind.bind, Except.bind]
      | pt p =>
        cases b with
        | arcCenter bx by_ =>
          have h' : hasAdjacentArcCenters
              (CurveNode.arcCenter bx by_ :: rest) = true := by
            simpa [hasAdjacentArcCenters] using h
          simpa [curveWalk] using ih (some p) h'
        | pt e =>
          have h' : hasAdjacentArcCenters (CurveNode.pt e :: rest) = true := by
            simpa [hasAdjacentArcCenters] using h
          simp [curveWalk, IDENTITY_apply, ih st h', Bind.bind, Except.bind]

/-- C5: with the identity transform, `[A, B]` appends exactly one line
from A to B; `[A, ArcCenter c, B]` appends exactly one arc with start A,
center c and end B; and any node sequence containing two adjacent
`ArcCenter` markers fails with the adjacent-marker error instead of
appending an element for that pair. -/
theorem spec_c5_curve_composition :
    (∀ (mod : Footprint) (A B : Vec2) (layer : String) (stroke : ℚ),
      add_curve mod [.pt A, .pt B] layer stroke IDENTITY =
        .ok ⟨mod.name, mod.description,
          mod.elements ++ [.line A B layer stroke]⟩) ∧
    (∀ (mod : Footprint) (A : Vec2) (cx cy : ℚ) (B : Vec2) (layer : String)
        (stroke : ℚ),
      add_curve mod [.pt A, .arcCenter cx cy, .pt B] layer stroke IDENTITY =
        .ok ⟨mod.name, mod.description,
          mod.elements ++ [.arc A ⟨cx, cy⟩ B layer stroke]⟩) ∧
    (∀ (mod : Footprint) (ns : List CurveNode) (layer : String) (stroke : ℚ),
      hasAdjacentArcCenters ns = true →
      add_curve mod ns layer stroke IDENTITY =
        .error "Cannot have two adjacent arc centers") := by
  refine ⟨?_, ?_, ?_⟩
  · intro mod A B layer stroke
    simp [add_curve, curveWalk, IDENTITY_apply, Except.map, Bind.bind,
      Except.bind, Functor.map, Pure.pure, Except.pure]
  · intro mod A cx cy B layer stroke
    simp [add_curve, curveWalk, IDENTITY_apply, Except.map, Bind.bind,
      Except.bind, Functor.map, Pure.pure, Except.pure]
  · intro mod ns layer stroke h
    simp [add_curve, curveWalk_adjacent_error layer stroke none ns h,
      Except.map]

/-- C5 witness: the sequence `[A, ArcCenter c1, ArcCenter c2, B]` fails
with the adjacent-marker error. -/
theorem spec_c5_curve_composition_witness :
    add_curve ⟨"", "", []⟩
        [.pt ⟨0, 0⟩, .arcCenter 1 1, .arcCenter 2 2, .pt ⟨3, 3⟩]
        F_SILK DEFAULT_STROKE IDENTITY =
      .error "Cannot have two adjacent arc centers" :=
  spec_c5_curve_composition.2.2 ⟨"", "", []⟩
    [.pt ⟨0, 0⟩, .arcCenter 1 1, .arcCenter 2 2, .pt ⟨3, 3⟩]
    F_SILK DEFAULT_STROKE (by decide)

/-- C10 counterexample: calling `add_polygon` with `fill=False` on an
empty nodes list raises `IndexError` from `nodes[0]` before any append, so
the caller's list stays empty rather than growing by one element. -/
theorem spec_c10_polygon_mutation_cex :
    (add_polygon ⟨"", "", []⟩ [] F_SILK DEFAULT_STROKE false IDENTITY).2 =
      [] ∧
    ¬((add_polygon ⟨"", "", []⟩ [] F_SILK DEFAULT_STROKE false
        IDENTITY).2.length = ([] : List Vec2).length + 1) ∧
    (add_polygon ⟨"", "", []⟩ [] F_SILK DEFAULT_STROKE false IDENTITY).1 =
      .error "list index out of range" := by
  refine ⟨rfl, ?_, rfl⟩
  decide

/-- C10 amended: for every `add_polygon` call with `fill=False` and a
nonempty nodes list, the caller's list is mutated — its first element is
appended to its end before the curve is emitted, leaving it one element
longer; with `fill=True` (and on the empty-list error path) the caller's
list is left unchanged. -/
theorem spec_c10_polygon_mutation :
    (∀ (mod : Footprint) (first : Vec2) (rest : List Vec2) (layer : String)
        (stroke : ℚ) (t : Transform),
      (add_polygon mod (first :: rest) layer stroke false t).2 =
        (first :: rest) ++ [first] ∧
      (add_polygon mod (first :: rest) layer stroke false t).2.length =
        (first :: rest).length + 1) ∧
    (∀ (mod : Footprint) (nodes : List Vec2) (layer : String) (stroke : ℚ)
        (t : Transform),
      (add_polygon mod nodes layer stroke true t).2 = nodes) := by
  refine ⟨?_, ?_⟩
  · intro mod first rest layer stroke t
    refine ⟨rfl, ?_⟩
    simp [add_polygon]
  · intro mod nodes layer stroke t
    rfl

/-- C3: building a solder-switch footprint at default options produces a
footprint named exactly "Cherry_MX_1.00u" containing exactly 2
through-hole pads, 1 central non-plated hole (at the origin, 4mm), 2
PCB-mount non-plated holes, one front fabrication, one front courtyard and
one front silkscreen square outline, one reference and one value text, a
keycap outline on the user drawing layer with its "1U" size label, and
zero 3D-model elements. -/
theorem spec_c3_default_solder_footprint :
    (make_mx_switch 1 .SOLDER .PCB .NONE .NORMAL false true true ⟨0, 0⟩
        0).map Footprint.name = .ok "Cherry_MX_1.00u" ∧
    (make_mx_switch 1 .SOLDER .PCB .NONE .NORMAL false true true ⟨0, 0⟩
        0).map (fun fp => fp.elements.countP fun e =>
          match e with
          | .pad _ .tht _ _ _ _ _ => true
          | _ => false) = .ok 2 ∧
    (make_mx_switch 1 .SOLDER .PCB .NONE .NORMAL false true true ⟨0, 0⟩
        0).map (fun fp => fp.elements.countP fun e =>
          match e with
          | .pad none .npth _ _ at_ size _ =>
            decide (at_ = ⟨0, 0⟩ ∧ size = ⟨4, 4⟩)
          | _ => false) = .ok 1 ∧
    (make_mx_switch 1 .SOLDER .PCB .NONE .NORMAL false true true ⟨0, 0⟩
        0).map (fun fp => fp.elements.countP fun e =>
          match e with
          | .pad none .npth _ _ at_ _ _ => decide (at_ ≠ ⟨0, 0⟩)
          | _ => false) = .ok 2 ∧
    (make_mx_switch 1 .SOLDER .PCB .NONE .NORMAL false true true ⟨0, 0⟩
        0).map (fun fp => fp.elements.countP fun e =>
          match e with
          | .rectLine _ _ _ layer => decide (layer = F_FAB)
          | _ => false) = .ok 1 ∧
    (make_mx_switch 1 .SOLDER .PCB .NONE .NORMAL false true true ⟨0, 0⟩
        0).map (fun fp => fp.elements.countP fun e =>
          match e with
          | .rectLine _ _ _ layer => decide (layer = F_COURT)
          | _ => false) = .ok 1 ∧
    (make_mx_switch 1 .SOLDER .PCB .NONE .NORMAL false true true ⟨0, 0⟩
        0).map (fun fp => fp.elements.countP fun e =>
          match e with
          | .rectLine _ _ _ layer => decide (layer = F_SILK)
          | _ => false) = .ok 1 ∧
    (make_mx_switch 1 .SOLDER .PCB .NONE .NORMAL false true true ⟨0, 0⟩
        0).map (fun fp => fp.elements.countP fun e =>
          match e with
          | .text .reference _ _ _ _ _ _ _ _ => true
          | _ => false) = .ok 1 ∧
    (make_mx_switch 1 .SOLDER .PCB .NONE .NORMAL false true true ⟨0, 0⟩
        0).map (fun fp => fp.elements.countP fun e =>
          match e with
          | .text .value _ _ _ _ _ _ _ _ => true
          | _ => false) = .ok 1 ∧
    (make_mx_switch 1 .SOLDER .PCB .NONE .NORMAL false true true ⟨0, 0⟩
        0).map (fun fp => fp.elements.countP fun e =>
          match e with
          | .rectLine _ _ _ layer => decide (layer = USER_DRAWING)
          | _ => false) = .ok 1 ∧
    (make_mx_switch 1 .SOLDER .PCB .NONE .NORMAL false true true ⟨0, 0⟩
        0).map (fun fp => fp.elements.countP fun e =>
          match e with
          | .text .user content _ _ _ _ _ _ _ => decide (content = "1U")
          | _ => false) = .ok 1 ∧
    (make_mx_switch 1 .SOLDER .PCB .NONE .NORMAL false true true ⟨0, 0⟩
        0).map (fun fp => fp.elements.countP fun e =>
          match e with
          | .model _ _ _ _ => true
          | _ => false) = .ok 0 := by
  decide
